import Mathlib

/-!
Shallow embedding of the bulk-dispatch engine of `whatsapp_api.py`
(class `WhatsAppAPI`) together with the configuration constants of
`config.py`, and proofs checking the specification's claims against it.

Time is modelled in whole seconds as `Nat` (the code uses `time.time()`
and only ever compares differences against whole-second thresholds).
The HTTP transport (`requests.post`) is an external collaborator and is
modelled as a function from the attempt number to an outcome: either an
HTTP response with a status code and body, or a network-level exception
(`requests.RequestException`).
-/

namespace WhatsApp

/-- Configuration constant `MAX_RETRIES` from `config.py` (line 17). -/
def MAX_RETRIES : Nat := 3

/-- Configuration constant `RETRY_DELAY` (seconds) from `config.py` (line 18). -/
def RETRY_DELAY : Nat := 5

/-- Configuration constant `RATE_LIMIT` (messages per minute) from `config.py` (line 19). -/
def RATE_LIMIT : Nat := 20

/-- Mutable rate-limiter state of `WhatsAppAPI`: the fields
`self.message_count` and `self.last_reset_time` set in `__init__`
(`whatsapp_api.py` lines 37-38). -/
structure RateState where
  messageCount : Nat
  lastResetTime : Nat
deriving DecidableEq

/-- Embedding of `WhatsAppAPI._check_rate_limit` (`whatsapp_api.py` lines 40-55),
parameterised by the configured `RATE_LIMIT` and the current time.  Returns the
updated state together with the boolean result: if at least 60 seconds have
elapsed since `last_reset_time` the count is reset to 0 and the window
restarted, then the call reports whether `message_count` is below the cap. -/
def checkRateLimit (rateLimit : Nat) (s : RateState) (now : Nat) : RateState × Bool :=
  let s' := if now - s.lastResetTime ≥ 60 then { messageCount := 0, lastResetTime := now } else s
  if s'.messageCount ≥ rateLimit then (s', false) else (s', true)

/-- The specification's `tryAcquire` operation (spec section 4.1): the code's
`_check_rate_limit` composed with the count increment that `send_message`
performs on a granted send (`whatsapp_api.py` line 112).  The spec explicitly
models acquisition and increment as atomic from the caller's perspective. -/
def tryAcquire (rateLimit : Nat) (s : RateState) (now : Nat) : RateState × Bool :=
  let r := checkRateLimit rateLimit s now
  if r.2 then ({ r.1 with messageCount := r.1.messageCount + 1 }, true) else (r.1, false)

/-- Closed form of `WhatsAppAPI._wait_for_rate_limit` (`whatsapp_api.py` lines
57-60), the 1-second busy poll around `_check_rate_limit`.  If the first check
passes, the state after that check is returned at the same instant.  If it is
denied (which for a positive cap implies `now < last_reset_time + 60`), the
first poll instant at which `now' - last_reset_time ≥ 60` holds is
`last_reset_time + 60`; at that instant the window resets and, when the cap is
positive, the check passes with a fresh window.  (With a zero cap the source
loop never terminates; this model is only consulted with a positive cap.) -/
def acquireBlocking (rateLimit : Nat) (s : RateState) (now : Nat) : RateState × Nat :=
  let r := checkRateLimit rateLimit s now
  if r.2 then (r.1, now)
  else ({ messageCount := 0, lastResetTime := s.lastResetTime + 60 }, s.lastResetTime + 60)

/-- Result of one transport attempt (`requests.post` in `send_message`):
either an HTTP response carrying a status code and a body, or a
request-level exception (`requests.RequestException`). -/
inductive TransportOutcome where
  | http (statusCode : Nat) (body : String)
  | netError (msg : String)
deriving DecidableEq

/-- The dictionary returned by `WhatsAppAPI.send_message`: either the parsed
provider response (`response.json()`, which carries no `"error"` key), or the
error dictionary `{"error": ..., "status_code": ...}` built for a non-200
status (line 123), or the error dictionary `{"error": ...}` built for a
network exception (line 133). -/
inductive SendResult where
  | ok (body : String)
  | httpError (msg : String) (statusCode : Nat)
  | netFailure (msg : String)
deriving DecidableEq

/-- The `"error"` entry of the dictionary returned by `send_message`, when
present; this is exactly the test `"error" not in response` used by
`send_bulk_messages` (line 174). -/
def errorOf : SendResult → Option String
  | .ok _ => none
  | .httpError m _ => some m
  | .netFailure m => some m

/-- Observable outcome of one `send_message` call: the returned dictionary,
the rate-limiter state and clock afterwards, and the number of transport
attempts (calls to `requests.post`) it performed. -/
structure SendOutcome where
  result : SendResult
  state : RateState
  now : Nat
  attempts : Nat
deriving DecidableEq

/-- Recursion core of `WhatsAppAPI.send_message` (`whatsapp_api.py` lines
62-133).  The source retries by recursive call with `retry_count + 1` while
`retry_count < MAX_RETRIES`; here that recursion is made structural on a
`fuel` argument which the wrapper `sendMessage` instantiates with
`maxRetries + 1 - retryCount`, so the `fuel = 0` arm inside the
`retryCount < maxRetries` branch is unreachable (whenever
`retryCount < maxRetries`, the fuel passed in is at least 2).  Each attempt
first blocks on the rate limiter, then posts; on status 200 the count is
incremented and the body returned; otherwise, and on a network exception,
it sleeps `retryDelay` seconds and recurses while retries remain, else
returns the error dictionary of the last attempt. -/
def sendMessageGo (maxRetries rateLimit retryDelay : Nat) (transport : Nat → TransportOutcome)
    (phoneNumber : String) : Nat → Nat → RateState → Nat → SendOutcome
  | fuel, retryCount, s, now =>
    let acq := acquireBlocking rateLimit s now
    match transport retryCount with
    | .http code body =>
        if code = 200 then
          { result := .ok body,
            state := { acq.1 with messageCount := acq.1.messageCount + 1 },
            now := acq.2, attempts := 1 }
        else
          let errorMsg := "Failed to send message to " ++ phoneNumber ++ ". Status: " ++ toString code
          if retryCount < maxRetries then
            match fuel with
            | fuel' + 1 =>
                let o := sendMessageGo maxRetries rateLimit retryDelay transport phoneNumber
                  fuel' (retryCount + 1) acq.1 (acq.2 + retryDelay)
                { o with attempts := o.attempts + 1 }
            | 0 =>
                { result := .httpError errorMsg code, state := acq.1, now := acq.2, attempts := 1 }
          else
            { result := .httpError errorMsg code, state := acq.1, now := acq.2, attempts := 1 }
    | .netError m =>
        let errorMsg := "Network error while sending message to " ++ phoneNumber ++ ": " ++ m
        if retryCount < maxRetries then
          match fuel with
          | fuel' + 1 =>
              let o := sendMessageGo maxRetries rateLimit retryDelay transport phoneNumber
                fuel' (retryCount + 1) acq.1 (acq.2 + retryDelay)
              { o with attempts := o.attempts + 1 }
          | 0 =>
              { result := .netFailure errorMsg, state := acq.1, now := acq.2, attempts := 1 }
        else
          { result := .netFailure errorMsg, state := acq.1, now := acq.2, attempts := 1 }

/-- Embedding of `WhatsAppAPI.send_message`, entered with the given
`retry_count` (the source default is 0). -/
def sendMessage (maxRetries rateLimit retryDelay : Nat) (transport : Nat → TransportOutcome)
    (phoneNumber : String) (retryCount : Nat) (s : RateState) (now : Nat) : SendOutcome :=
  sendMessageGo maxRetries rateLimit retryDelay transport phoneNumber
    (maxRetries + 1 - retryCount) retryCount s now

/-- Whether a transport outcome is a failing attempt for `send_message`:
an HTTP response with a status other than 200, or a network exception. -/
def isFailOutcome : TransportOutcome → Bool
  | .http code _ => code != 200
  | .netError _ => true

/-- The error dictionary `send_message` builds for a failing attempt
(`whatsapp_api.py` lines 116, 123, 126, 133). -/
def lastAttemptResult (phoneNumber : String) : TransportOutcome → SendResult
  | .http code _ =>
      .httpError ("Failed to send message to " ++ phoneNumber ++ ". Status: " ++ toString code) code
  | .netError m =>
      .netFailure ("Network error while sending message to " ++ phoneNumber ++ ": " ++ m)

/-- A contact: a Python dictionary from field names to string values,
modelled as an association list (first binding wins, as dictionary keys
are unique). -/
abbrev Contact := List (String × String)

/-- Dictionary lookup `contact[field]`, returning `none` where Python
would raise `KeyError`. -/
def lookupField (c : Contact) (f : String) : Option String :=
  match c with
  | [] => none
  | (k, v) :: rest => if k = f then some v else lookupField rest f

/-- One piece of a message template: literal text, or a `{field}`
placeholder. -/
inductive TemplatePart where
  | lit (s : String)
  | field (name : String)
deriving DecidableEq

/-- A message template: the parsed form of a Python format string with
named `{field}` placeholders, as consumed by
`message_template.format(**contact)` (`whatsapp_api.py` line 164). -/
abbrev Template := List TemplatePart

/-- Embedding of `message_template.format(**contact)`: substitute every
placeholder from the contact's fields; a missing field raises `KeyError`
with the field's name, modelled as `.error name` (the first missing
field encountered, as in CPython's left-to-right rendering). -/
def renderTemplate (tmpl : Template) (c : Contact) : Except String String :=
  match tmpl with
  | [] => .ok ""
  | .lit s :: rest => (renderTemplate rest c).map (fun t => s ++ t)
  | .field f :: rest =>
      match lookupField c f with
      | some v => (renderTemplate rest c).map (fun t => v ++ t)
      | none => .error f

/-- Provenance-tagged error recorded in the `failures` list of
`send_bulk_messages`.  The source stores a plain string (`str(e)` for
exceptions caught at the per-contact boundary, `response["error"]` for a
failed send); the constructors record where that string came from, which
is the spec's error taxonomy (section 7). -/
inductive DispatchError where
  | templateRenderError (missingField : String)
  | missingPhoneField
  | transportError (msg : String)
  | callbackError
deriving DecidableEq

/-- One entry of `results["failures"]`: the offending contact together
with the recorded error (`whatsapp_api.py` lines 178-181, 191-194). -/
structure FailureEntry where
  contact : Contact
  error : DispatchError
deriving DecidableEq

/-- The `results` dictionary built by `send_bulk_messages`
(`whatsapp_api.py` lines 154-159). -/
structure DispatchResult where
  total : Nat
  successful : Nat
  failed : Nat
  failures : List FailureEntry
deriving DecidableEq

/-- The progress percentage `(index + 1) / len(contacts) * 100` computed
at `whatsapp_api.py` line 185, as an exact rational. -/
def progressOf (total index : Nat) : Rat :=
  ((index : Rat) + 1) / (total : Rat) * 100

/-- Full observable state threaded through the `send_bulk_messages` loop:
the running results, the rate-limiter state and clock, plus two traces —
every transport attempt as a pair (contact index, attempt number), and
every progress-callback invocation as the pair of arguments it received. -/
structure BulkState where
  results : DispatchResult
  rate : RateState
  now : Nat
  transportCalls : List (Nat × Nat)
  callbackCalls : List (Rat × DispatchResult)
deriving DecidableEq

/-- One iteration of the `for index, contact in enumerate(contacts)` loop of
`send_bulk_messages` (`whatsapp_api.py` lines 161-194).  The callback is
modelled as `Option (Rat → DispatchResult → Bool)` where the boolean says
whether the invocation raises; a raising callback (like any exception inside
the `try`) lands in the `except` branch, which appends a failure entry for
the contact and moves on.  Rendering happens first; a missing placeholder
field raises `KeyError`, caught by the `except` branch with no transport
call.  Then `contact['phone_number']` is read (its absence also raises
`KeyError`), and `send_message` runs with `retry_count = 0`. -/
def processContact (maxRetries rateLimit retryDelay : Nat)
    (transport : Nat → Nat → TransportOutcome) (tmpl : Template)
    (callback : Option (Rat → DispatchResult → Bool)) (total index : Nat)
    (contact : Contact) (st : BulkState) : BulkState :=
  match renderTemplate tmpl contact with
  | .error f =>
      { st with results := { st.results with
          failed := st.results.failed + 1,
          failures := st.results.failures ++ [⟨contact, .templateRenderError f⟩] } }
  | .ok _customMessage =>
      match lookupField contact "phone_number" with
      | none =>
          { st with results := { st.results with
              failed := st.results.failed + 1,
              failures := st.results.failures ++ [⟨contact, .missingPhoneField⟩] } }
      | some phone =>
          let o := sendMessage maxRetries rateLimit retryDelay (transport index) phone 0
            st.rate st.now
          let st1 : BulkState :=
            { st with
              rate := o.state,
              now := o.now,
              transportCalls :=
                st.transportCalls ++ (List.range o.attempts).map (fun k => (index, k)) }
          let results1 :=
            match errorOf o.result with
            | none => { st1.results with successful := st1.results.successful + 1 }
            | some e =>
                { st1.results with
                  failed := st1.results.failed + 1,
                  failures := st1.results.failures ++ [⟨contact, .transportError e⟩] }
          let st2 : BulkState := { st1 with results := results1 }
          match callback with
          | none => st2
          | some cb =>
              let progress := progressOf total index
              let st3 : BulkState :=
                { st2 with callbackCalls := st2.callbackCalls ++ [(progress, results1)] }
              if cb progress results1 then
                { st3 with results := { st3.results with
                    failed := st3.results.failed + 1,
                    failures := st3.results.failures ++ [⟨contact, .callbackError⟩] } }
              else st3

/-- The `for` loop of `send_bulk_messages`, starting at a given contact
index with a given running state. -/
def bulkLoop (maxRetries rateLimit retryDelay : Nat)
    (transport : Nat → Nat → TransportOutcome) (tmpl : Template)
    (callback : Option (Rat → DispatchResult → Bool)) (total : Nat) :
    List Contact → Nat → BulkState → BulkState
  | [], _, st => st
  | c :: rest, index, st =>
      bulkLoop maxRetries rateLimit retryDelay transport tmpl callback total rest (index + 1)
        (processContact maxRetries rateLimit retryDelay transport tmpl callback total index c st)

/-- The fresh per-dispatch state: the `results` dictionary initialised at
`whatsapp_api.py` lines 154-159, the inherited rate-limiter state and
clock, and empty traces. -/
def initState (contacts : List Contact) (rate0 : RateState) (now0 : Nat) : BulkState :=
  { results := { total := contacts.length, successful := 0, failed := 0, failures := [] },
    rate := rate0, now := now0, transportCalls := [], callbackCalls := [] }

/-- Embedding of `WhatsAppAPI.send_bulk_messages` (`whatsapp_api.py` lines
135-199).  The transport is indexed first by contact index, then by attempt
number within that contact's `send_message` call. -/
def send_bulk_messages (maxRetries rateLimit retryDelay : Nat)
    (transport : Nat → Nat → TransportOutcome) (contacts : List Contact)
    (tmpl : Template) (callback : Option (Rat → DispatchResult → Bool))
    (rate0 : RateState) (now0 : Nat) : BulkState :=
  bulkLoop maxRetries rateLimit retryDelay transport tmpl callback contacts.length contacts 0
    (initState contacts rate0 now0)

/-- The digit-stripping step `''.join(filter(str.isdigit, phone_number))`
shared by `validate_phone_number` and `format_phone_number`
(`whatsapp_api.py` lines 212, 230). -/
def cleanDigits (s : String) : String :=
  String.mk (s.data.filter Char.isDigit)

/-- Embedding of `WhatsAppAPI.validate_phone_number` (`whatsapp_api.py`
lines 201-217). -/
def validate_phone_number (s : String) : Bool :=
  let cleaned := cleanDigits s
  if cleaned.length < 10 || 15 < cleaned.length then false else true

/-- Python's `str.startswith` specialised to a single-character test, as
used by `cleaned_number.startswith('+')` (`whatsapp_api.py` line 233). -/
def startsWithChar (s : String) (c : Char) : Bool :=
  match s.data with
  | [] => false
  | a :: _ => a == c

/-- Embedding of `WhatsAppAPI.format_phone_number` (`whatsapp_api.py`
lines 219-236). -/
def format_phone_number (s : String) : String :=
  let cleaned := cleanDigits s
  if !(startsWithChar cleaned '+') then "+" ++ cleaned else cleaned

/-! ## Unfolding lemmas for `send_message` -/

theorem sendMessageGo_success (mr rl rd : Nat) (tr : Nat → TransportOutcome) (p : String)
    (fuel rc : Nat) (s : RateState) (now : Nat) (body : String)
    (h : tr rc = .http 200 body) :
    sendMessageGo mr rl rd tr p fuel rc s now =
      { result := .ok body,
        state := { (acquireBlocking rl s now).1 with
          messageCount := (acquireBlocking rl s now).1.messageCount + 1 },
        now := (acquireBlocking rl s now).2, attempts := 1 } := by
  conv_lhs => rw [sendMessageGo]
  rw [h]
  simp

theorem sendMessageGo_fail_step (mr rl rd : Nat) (tr : Nat → TransportOutcome) (p : String)
    (fuel rc : Nat) (s : RateState) (now : Nat)
    (hf : isFailOutcome (tr rc) = true) (hlt : rc < mr) :
    sendMessageGo mr rl rd tr p (fuel + 1) rc s now =
      { sendMessageGo mr rl rd tr p fuel (rc + 1) (acquireBlocking rl s now).1
          ((acquireBlocking rl s now).2 + rd) with
        attempts := (sendMessageGo mr rl rd tr p fuel (rc + 1) (acquireBlocking rl s now).1
          ((acquireBlocking rl s now).2 + rd)).attempts + 1 } := by
  cases h : tr rc with
  | http code body =>
      have hcode : ¬ code = 200 := by simpa [isFailOutcome, h, bne_iff_ne] using hf
      conv_lhs => rw [sendMessageGo]
      rw [h]
      simp only [if_neg hcode, if_pos hlt]
  | netError m =>
      conv_lhs => rw [sendMessageGo]
      rw [h]
      simp only [if_pos hlt]

theorem sendMessageGo_fail_last (mr rl rd : Nat) (tr : Nat → TransportOutcome) (p : String)
    (fuel rc : Nat) (s : RateState) (now : Nat)
    (hf : isFailOutcome (tr rc) = true) (hge : ¬ rc < mr) :
    sendMessageGo mr rl rd tr p fuel rc s now =
      { result := lastAttemptResult p (tr rc), state := (acquireBlocking rl s now).1,
        now := (acquireBlocking rl s now).2, attempts := 1 } := by
  cases h : tr rc with
  | http code body =>
      have hcode : ¬ code = 200 := by simpa [isFailOutcome, h, bne_iff_ne] using hf
      conv_lhs => rw [sendMessageGo]
      rw [h]
      simp [hcode, hge, lastAttemptResult]
  | netError m =>
      conv_lhs => rw [sendMessageGo]
      rw [h]
      simp [hge, lastAttemptResult]

theorem sendMessageGo_allFail (mr rl rd : Nat) (tr : Nat → TransportOutcome) (p : String)
    (hf : ∀ k, isFailOutcome (tr k) = true) :
    ∀ (k rc : Nat), mr - rc = k → rc ≤ mr → ∀ (s : RateState) (now : Nat),
      (sendMessageGo mr rl rd tr p (mr + 1 - rc) rc s now).result =
        lastAttemptResult p (tr mr) ∧
      (sendMessageGo mr rl rd tr p (mr + 1 - rc) rc s now).attempts = k + 1 := by
  intro k
  induction k with
  | zero =>
      intro rc hk hle s now
      have hrc : rc = mr := by omega
      rw [sendMessageGo_fail_last mr rl rd tr p _ rc s now (hf rc) (by omega)]
      simp [hrc]
  | succ k ih =>
      intro rc hk hle s now
      have hlt : rc < mr := by omega
      have hfuel : mr + 1 - rc = (mr - rc - 1 + 1) + 1 := by omega
      rw [hfuel, sendMessageGo_fail_step mr rl rd tr p _ rc s now (hf rc) hlt]
      have hfuel2 : mr - rc - 1 + 1 = mr + 1 - (rc + 1) := by omega
      rw [hfuel2]
      have := ih (rc + 1) (by omega) (by omega) (acquireBlocking rl s now).1
        ((acquireBlocking rl s now).2 + rd)
      exact ⟨this.1, by rw [this.2]⟩

theorem sendMessage_allFail (mr rl rd : Nat) (tr : Nat → TransportOutcome) (p : String)
    (s : RateState) (now : Nat) (hf : ∀ k, isFailOutcome (tr k) = true) :
    (sendMessage mr rl rd tr p 0 s now).result = lastAttemptResult p (tr mr) ∧
    (sendMessage mr rl rd tr p 0 s now).attempts = mr + 1 := by
  simpa [sendMessage] using
    sendMessageGo_allFail mr rl rd tr p hf mr 0 (by omega) (by omega) s now

theorem acquireBlocking_of_lt (rl : Nat) (s : RateState) (now : Nat)
    (h : s.messageCount < rl) :
    (acquireBlocking rl s now).2 = now ∧
    (acquireBlocking rl s now).1.messageCount ≤ s.messageCount := by
  by_cases hr : now - s.lastResetTime ≥ 60
  · have h0 : ¬ (0 ≥ rl) := by omega
    simp [acquireBlocking, checkRateLimit, hr, h0]
  · have h0 : ¬ (s.messageCount ≥ rl) := by omega
    simp [acquireBlocking, checkRateLimit, hr, h0]

theorem sendMessageGo_allFail_rate (mr rl rd : Nat) (tr : Nat → TransportOutcome) (p : String)
    (hf : ∀ k, isFailOutcome (tr k) = true) :
    ∀ (k rc : Nat), mr - rc = k → rc ≤ mr → ∀ (s : RateState) (now : Nat),
      s.messageCount < rl →
      (sendMessageGo mr rl rd tr p (mr + 1 - rc) rc s now).state.messageCount ≤
        s.messageCount ∧
      (sendMessageGo mr rl rd tr p (mr + 1 - rc) rc s now).now = now + k * rd := by
  intro k
  induction k with
  | zero =>
      intro rc hk hle s now hc
      rw [sendMessageGo_fail_last mr rl rd tr p _ rc s now (hf rc) (by omega)]
      have ha := acquireBlocking_of_lt rl s now hc
      exact ⟨ha.2, by simpa using ha.1⟩
  | succ k ih =>
      intro rc hk hle s now hc
      have hlt : rc < mr := by omega
      have hfuel : mr + 1 - rc = (mr - rc - 1 + 1) + 1 := by omega
      rw [hfuel, sendMessageGo_fail_step mr rl rd tr p _ rc s now (hf rc) hlt]
      have hfuel2 : mr - rc - 1 + 1 = mr + 1 - (rc + 1) := by omega
      rw [hfuel2]
      have ha := acquireBlocking_of_lt rl s now hc
      have := ih (rc + 1) (by omega) (by omega) (acquireBlocking rl s now).1
        ((acquireBlocking rl s now).2 + rd) (by omega)
      refine ⟨le_trans this.1 ha.2, ?_⟩
      rw [this.2, ha.1]
      ring

/-- Every failing attempt's error dictionary carries an `"error"` entry. -/
theorem errorOf_lastAttemptResult (p : String) (o : TransportOutcome) :
    (errorOf (lastAttemptResult p o)).isSome = true := by
  cases o <;> rfl

/-! ## Claim theorems: send_message retry and status mapping, rate limiter -/

/-- C2 counterexample: with the configured `MAX_RETRIES = 3` and a transport
that fails on every attempt (HTTP 500), `send_message` invokes the transport
4 times for the contact, not 3 as claimed. -/
theorem c2_retry_count_counterexample :
    (sendMessage MAX_RETRIES RATE_LIMIT RETRY_DELAY (fun _ => TransportOutcome.http 500 "")
      "5551234567" 0 ⟨0, 0⟩ 0).attempts = 4 ∧
    ¬ (sendMessage MAX_RETRIES RATE_LIMIT RETRY_DELAY (fun _ => TransportOutcome.http 500 "")
      "5551234567" 0 ⟨0, 0⟩ 0).attempts = 3 := by
  decide

/-- C2 (amended): for a transport that fails on every attempt and the
configured maximum retries equal to 3, `send_message` records the contact as
failed with the last observed error (the error dictionary of the final
attempt, attempt number 3), and the transport is invoked exactly
`MAX_RETRIES + 1 = 4` times for that contact: the initial attempt plus
`MAX_RETRIES` retries, since the source retries while
`retry_count < MAX_RETRIES` starting from `retry_count = 0`. -/
theorem c2_retry_count_amended (rl rd : Nat) (tr : Nat → TransportOutcome) (p : String)
    (s : RateState) (now : Nat) (hf : ∀ k, isFailOutcome (tr k) = true) :
    (sendMessage MAX_RETRIES rl rd tr p 0 s now).attempts = MAX_RETRIES + 1 ∧
    (sendMessage MAX_RETRIES rl rd tr p 0 s now).attempts = 4 ∧
    (sendMessage MAX_RETRIES rl rd tr p 0 s now).result = lastAttemptResult p (tr 3) ∧
    (errorOf (sendMessage MAX_RETRIES rl rd tr p 0 s now).result).isSome = true := by
  have h := sendMessage_allFail MAX_RETRIES rl rd tr p s now hf
  refine ⟨h.2, h.2, h.1, ?_⟩
  rw [h.1]
  exact errorOf_lastAttemptResult p (tr MAX_RETRIES)

/-- C2 witness: the amended theorem applied to the HTTP-500 transport stub. -/
theorem c2_retry_count_witness :
    (∀ k : Nat, isFailOutcome ((fun _ => TransportOutcome.http 500 "") k) = true) ∧
    ((sendMessage MAX_RETRIES RATE_LIMIT RETRY_DELAY (fun _ => TransportOutcome.http 500 "")
        "5551234567" 0 ⟨0, 0⟩ 0).attempts = MAX_RETRIES + 1 ∧
      (sendMessage MAX_RETRIES RATE_LIMIT RETRY_DELAY (fun _ => TransportOutcome.http 500 "")
        "5551234567" 0 ⟨0, 0⟩ 0).attempts = 4 ∧
      (sendMessage MAX_RETRIES RATE_LIMIT RETRY_DELAY (fun _ => TransportOutcome.http 500 "")
        "5551234567" 0 ⟨0, 0⟩ 0).result =
          lastAttemptResult "5551234567" ((fun _ => TransportOutcome.http 500 "") 3) ∧
      (errorOf (sendMessage MAX_RETRIES RATE_LIMIT RETRY_DELAY
        (fun _ => TransportOutcome.http 500 "")
        "5551234567" 0 ⟨0, 0⟩ 0).result).isSome = true) :=
  ⟨fun _ => rfl,
    c2_retry_count_amended RATE_LIMIT RETRY_DELAY (fun _ => TransportOutcome.http 500 "")
      "5551234567" ⟨0, 0⟩ 0 (fun _ => rfl)⟩

/-- C4 counterexample: HTTP status 201 is a 2xx status, yet `send_message`
(whose success test is `response.status_code == 200`) maps it to a Failure:
the returned dictionary carries an `"error"` entry. -/
theorem c4_status_mapping_counterexample :
    (200 ≤ 201 ∧ 201 < 300) ∧
    errorOf (sendMessage MAX_RETRIES RATE_LIMIT RETRY_DELAY
      (fun _ => TransportOutcome.http 201 "created") "5551234567" 0 ⟨0, 0⟩ 0).result ≠ none := by
  decide

/-- C4 (amended): in `send_message`, a non-200 HTTP response and a
request-level (network) exception both map to Failure (a dictionary with an
`"error"` entry), and conversely exactly a status-200 HTTP response maps to
Success returning the provider response; other 2xx statuses are treated as
failures. -/
theorem c4_status_mapping_amended (rl rd : Nat) (p body m : String) (code : Nat)
    (s : RateState) (now : Nat) :
    ((sendMessage MAX_RETRIES rl rd (fun _ => TransportOutcome.http code body) p 0 s now).result =
      if code = 200 then SendResult.ok body
      else SendResult.httpError
        ("Failed to send message to " ++ p ++ ". Status: " ++ toString code) code) ∧
    ((sendMessage MAX_RETRIES rl rd (fun _ => TransportOutcome.netError m) p 0 s now).result =
      SendResult.netFailure ("Network error while sending message to " ++ p ++ ": " ++ m)) ∧
    errorOf (SendResult.ok body) = none ∧
    (∀ msg sc, errorOf (SendResult.httpError msg sc) = some msg) ∧
    (∀ msg, errorOf (SendResult.netFailure msg) = some msg) := by
  refine ⟨?_, ?_, rfl, fun _ _ => rfl, fun _ => rfl⟩
  · by_cases hc : code = 200
    · subst hc
      rw [if_pos rfl]
      have h := sendMessageGo_success MAX_RETRIES rl rd (fun _ => .http 200 body) p
        (MAX_RETRIES + 1) 0 s now body rfl
      simp [sendMessage, h]
    · rw [if_neg hc]
      have h := sendMessage_allFail MAX_RETRIES rl rd (fun _ => .http code body) p s now
        (fun k => by simp [isFailOutcome, hc])
      rw [h.1]
      exact rfl
  · have h := sendMessage_allFail MAX_RETRIES rl rd (fun _ => .netError m) p s now
      (fun k => rfl)
    rw [h.1]
    exact rfl

/-- C5: with a cap of 2 messages per 60-second window, three `tryAcquire`
calls within one window yield `true, true, false` (the first two grants
raising the count from 0 to 2, the denied third leaving state untouched);
once 60 seconds have elapsed since the window's start, the next check resets
the count to 0, restarts the window at the current instant, and the
acquisition is granted. -/
theorem c5_rate_window (t0 t1 t2 t3 t4 : Nat)
    (h1 : t1 - t0 < 60) (h2 : t2 - t0 < 60) (h3 : t3 - t0 < 60) (h4 : t0 + 60 ≤ t4) :
    tryAcquire 2 ⟨0, t0⟩ t1 = (⟨1, t0⟩, true) ∧
    tryAcquire 2 ⟨1, t0⟩ t2 = (⟨2, t0⟩, true) ∧
    tryAcquire 2 ⟨2, t0⟩ t3 = (⟨2, t0⟩, false) ∧
    checkRateLimit 2 ⟨2, t0⟩ t4 = (⟨0, t4⟩, true) ∧
    tryAcquire 2 ⟨2, t0⟩ t4 = (⟨1, t4⟩, true) := by
  have n1 : ¬ (t1 - t0 ≥ 60) := by omega
  have n2 : ¬ (t2 - t0 ≥ 60) := by omega
  have n3 : ¬ (t3 - t0 ≥ 60) := by omega
  have r4 : t4 - t0 ≥ 60 := by omega
  refine ⟨?_, ?_, ?_, ?_, ?_⟩ <;>
    simp [tryAcquire, checkRateLimit, n1, n2, n3, r4]

/-- C5 witness: the rate-window theorem at concrete instants 0, 0, 1, 2, 60. -/
theorem c5_rate_window_witness :
    (0 - 0 < 60 ∧ 1 - 0 < 60 ∧ 2 - 0 < 60 ∧ 0 + 60 ≤ 60) ∧
    (tryAcquire 2 ⟨0, 0⟩ 0 = (⟨1, 0⟩, true) ∧
      tryAcquire 2 ⟨1, 0⟩ 1 = (⟨2, 0⟩, true) ∧
      tryAcquire 2 ⟨2, 0⟩ 2 = (⟨2, 0⟩, false) ∧
      checkRateLimit 2 ⟨2, 0⟩ 60 = (⟨0, 60⟩, true) ∧
      tryAcquire 2 ⟨2, 0⟩ 60 = (⟨1, 60⟩, true)) :=
  ⟨by decide, c5_rate_window 0 0 1 2 60 (by decide) (by decide) (by decide) (by decide)⟩

/-- C9: `message_count` is incremented only by a transport attempt returning
HTTP status 200.  For a transport failing on every attempt, the final count
never exceeds the initial one (it is either unchanged or reset by a window
expiry), every one of the `maxRetries + 1` attempts passes the rate check
without being throttled — the clock advances only by the fixed retry delays,
never by a rate-limit wait — and this holds for an arbitrarily large
configured `maxRetries`, i.e. arbitrarily many failing attempts.  A 200
response, by contrast, increments the count by one. -/
theorem c9_count_only_on_success (mr rl rd : Nat) (tr : Nat → TransportOutcome) (p : String)
    (s : RateState) (now : Nat) (hf : ∀ k, isFailOutcome (tr k) = true)
    (hc : s.messageCount < rl) :
    (sendMessage mr rl rd tr p 0 s now).state.messageCount ≤ s.messageCount ∧
    (sendMessage mr rl rd tr p 0 s now).attempts = mr + 1 ∧
    (sendMessage mr rl rd tr p 0 s now).now = now + mr * rd ∧
    (∀ body, (sendMessage mr rl rd (fun _ => TransportOutcome.http 200 body) p 0 s
      now).state.messageCount = (acquireBlocking rl s now).1.messageCount + 1) := by
  have hA := sendMessage_allFail mr rl rd tr p s now hf
  have hB := sendMessageGo_allFail_rate mr rl rd tr p hf mr 0 (by omega) (by omega) s now hc
  refine ⟨?_, hA.2, ?_, ?_⟩
  · simpa [sendMessage] using hB.1
  · simpa [sendMessage] using hB.2
  · intro body
    have h := sendMessageGo_success mr rl rd (fun _ => .http 200 body) p
      (mr + 1) 0 s now body rfl
    simp [sendMessage, h]

/-- C9 witness: the theorem at the HTTP-500 transport stub with the default
configuration, starting from a fresh rate window. -/
theorem c9_count_only_on_success_witness :
    ((∀ k : Nat, isFailOutcome ((fun _ => TransportOutcome.http 500 "") k) = true) ∧
      (0 : Nat) < 20) ∧
    ((sendMessage 3 20 5 (fun _ => TransportOutcome.http 500 "") "5551234567" 0
        ⟨0, 0⟩ 0).state.messageCount ≤ (RateState.mk 0 0).messageCount ∧
      (sendMessage 3 20 5 (fun _ => TransportOutcome.http 500 "") "5551234567" 0
        ⟨0, 0⟩ 0).attempts = 3 + 1 ∧
      (sendMessage 3 20 5 (fun _ => TransportOutcome.http 500 "") "5551234567" 0
        ⟨0, 0⟩ 0).now = 0 + 3 * 5 ∧
      (∀ body, (sendMessage 3 20 5 (fun _ => TransportOutcome.http 200 body) "5551234567" 0
        ⟨0, 0⟩ 0).state.messageCount = (acquireBlocking 20 ⟨0, 0⟩ 0).1.messageCount + 1)) :=
  ⟨⟨fun _ => rfl, by decide⟩,
    c9_count_only_on_success 3 20 5 (fun _ => TransportOutcome.http 500 "") "5551234567"
      ⟨0, 0⟩ 0 (fun _ => rfl) (by decide)⟩

/-! ## Bulk-dispatch loop lemmas -/

/-- A progress callback is tame when it never raises: either no callback was
supplied, or every invocation returns normally. -/
def CallbackTame : Option (Rat → DispatchResult → Bool) → Prop
  | none => True
  | some cb => ∀ p r, cb p r = false

theorem processContact_counts (mr rl rd : Nat) (transport : Nat → Nat → TransportOutcome)
    (tmpl : Template) (callback : Option (Rat → DispatchResult → Bool)) (total index : Nat)
    (c : Contact) (st : BulkState) (h : CallbackTame callback) :
    (processContact mr rl rd transport tmpl callback total index c st).results.successful +
      (processContact mr rl rd transport tmpl callback total index c st).results.failed =
      st.results.successful + st.results.failed + 1 ∧
    (processContact mr rl rd transport tmpl callback total index c st).results.total =
      st.results.total := by
  cases hr : renderTemplate tmpl c with
  | error f => simp [processContact, hr]; omega
  | ok msg =>
    cases hp : lookupField c "phone_number" with
    | none => simp [processContact, hr, hp]; omega
    | some phone =>
      cases callback with
      | none =>
          cases he : errorOf (sendMessage mr rl rd (transport index) phone 0 st.rate
            st.now).result <;> simp [processContact, hr, hp, he] <;> omega
      | some cb =>
          cases he : errorOf (sendMessage mr rl rd (transport index) phone 0 st.rate
            st.now).result <;> simp [processContact, hr, hp, he, h _ _] <;> omega

theorem bulkLoop_counts (mr rl rd : Nat) (transport : Nat → Nat → TransportOutcome)
    (tmpl : Template) (callback : Option (Rat → DispatchResult → Bool)) (total : Nat)
    (h : CallbackTame callback) :
    ∀ (l : List Contact) (i : Nat) (st : BulkState),
      (bulkLoop mr rl rd transport tmpl callback total l i st).results.successful +
        (bulkLoop mr rl rd transport tmpl callback total l i st).results.failed =
        st.results.successful + st.results.failed + l.length ∧
      (bulkLoop mr rl rd transport tmpl callback total l i st).results.total =
        st.results.total := by
  intro l
  induction l with
  | nil => intro i st; simp [bulkLoop]
  | cons c rest ih =>
      intro i st
      have hpc := processContact_counts mr rl rd transport tmpl callback total i c st h
      have hl := ih (i + 1) (processContact mr rl rd transport tmpl callback total i c st)
      refine ⟨?_, ?_⟩
      · simp only [bulkLoop, List.length_cons]
        omega
      · simp only [bulkLoop]
        omega

/-! ## Claim theorems: result aggregation -/

/-- C1 counterexample: a one-contact list whose send succeeds but whose
progress callback raises — caught by the per-contact handler, the contact is
counted both successful and failed, so `successful + failed = 2 ≠ 1 = total`
on the returned result. -/
theorem c1_totals_counterexample :
    (send_bulk_messages 3 20 5 (fun _ _ => TransportOutcome.http 200 "ok")
        [[("phone_number", "1234567890")]] [TemplatePart.lit "hi"]
        (some (fun _ _ => true)) ⟨0, 0⟩ 0).results.successful +
      (send_bulk_messages 3 20 5 (fun _ _ => TransportOutcome.http 200 "ok")
        [[("phone_number", "1234567890")]] [TemplatePart.lit "hi"]
        (some (fun _ _ => true)) ⟨0, 0⟩ 0).results.failed ≠
      (send_bulk_messages 3 20 5 (fun _ _ => TransportOutcome.http 200 "ok")
        [[("phone_number", "1234567890")]] [TemplatePart.lit "hi"]
        (some (fun _ _ => true)) ⟨0, 0⟩ 0).results.total := by
  decide

/-- C1 (amended): for every contact list, provided the progress callback
never raises (in particular whenever no callback is supplied),
`send_bulk_messages` returns a result whose `total` equals the length of the
input list and whose `successful + failed` equals `total`. -/
theorem c1_totals_amended (mr rl rd : Nat) (transport : Nat → Nat → TransportOutcome)
    (contacts : List Contact) (tmpl : Template)
    (callback : Option (Rat → DispatchResult → Bool)) (r0 : RateState) (n0 : Nat)
    (h : CallbackTame callback) :
    (send_bulk_messages mr rl rd transport contacts tmpl callback r0 n0).results.total =
      contacts.length ∧
    (send_bulk_messages mr rl rd transport contacts tmpl callback r0 n0).results.successful +
      (send_bulk_messages mr rl rd transport contacts tmpl callback r0 n0).results.failed =
      (send_bulk_messages mr rl rd transport contacts tmpl callback r0 n0).results.total := by
  have hl := bulkLoop_counts mr rl rd transport tmpl callback contacts.length h contacts 0
    (initState contacts r0 n0)
  simp only [send_bulk_messages, initState] at hl ⊢
  omega

/-- C1 witness: the amended theorem at a two-contact list with no callback
supplied. -/
theorem c1_totals_witness :
    CallbackTame none ∧
    ((send_bulk_messages 3 20 5 (fun _ _ => TransportOutcome.http 200 "ok")
        [[("phone_number", "1234567890")], [("phone_number", "1234567891")]]
        [TemplatePart.lit "hi"] none ⟨0, 0⟩ 0).results.total =
      ([[("phone_number", "1234567890")], [("phone_number", "1234567891")]] :
        List Contact).length ∧
      (send_bulk_messages 3 20 5 (fun _ _ => TransportOutcome.http 200 "ok")
        [[("phone_number", "1234567890")], [("phone_number", "1234567891")]]
        [TemplatePart.lit "hi"] none ⟨0, 0⟩ 0).results.successful +
      (send_bulk_messages 3 20 5 (fun _ _ => TransportOutcome.http 200 "ok")
        [[("phone_number", "1234567890")], [("phone_number", "1234567891")]]
        [TemplatePart.lit "hi"] none ⟨0, 0⟩ 0).results.failed =
      (send_bulk_messages 3 20 5 (fun _ _ => TransportOutcome.http 200 "ok")
        [[("phone_number", "1234567890")], [("phone_number", "1234567891")]]
        [TemplatePart.lit "hi"] none ⟨0, 0⟩ 0).results.total) :=
  ⟨trivial,
    c1_totals_amended 3 20 5 (fun _ _ => TransportOutcome.http 200 "ok")
      [[("phone_number", "1234567890")], [("phone_number", "1234567891")]]
      [TemplatePart.lit "hi"] none ⟨0, 0⟩ 0 trivial⟩

/-- C7: for an empty contact sequence, `send_bulk_messages` returns
`{total: 0, successful: 0, failed: 0, failures: []}` and the progress
callback is never invoked; the division `(index + 1) / len(contacts)` is
never evaluated because the loop body never runs, so no division by zero
occurs. -/
theorem c7_empty_contacts (mr rl rd : Nat) (transport : Nat → Nat → TransportOutcome)
    (tmpl : Template) (callback : Option (Rat → DispatchResult → Bool))
    (r0 : RateState) (n0 : Nat) :
    (send_bulk_messages mr rl rd transport [] tmpl callback r0 n0).results =
      ⟨0, 0, 0, []⟩ ∧
    (send_bulk_messages mr rl rd transport [] tmpl callback r0 n0).callbackCalls = [] ∧
    (send_bulk_messages mr rl rd transport [] tmpl callback r0 n0).transportCalls = [] := by
  exact ⟨rfl, rfl, rfl⟩

/-- C10: if the progress callback raises after a contact's send was already
counted as successful, `send_bulk_messages` catches the exception in the
per-contact handler, additionally counts that same contact as failed
(appending it to `failures`), and continues with the next contact — so for a
one-contact list `successful + failed = 2` exceeds `total = 1`. -/
theorem c10_raising_callback (mr rl rd : Nat) (transport : Nat → Nat → TransportOutcome)
    (tmpl : Template) (cb : Rat → DispatchResult → Bool) (c : Contact)
    (r0 : RateState) (n0 : Nat) (m ph body : String)
    (hr : renderTemplate tmpl c = .ok m)
    (hp : lookupField c "phone_number" = some ph)
    (ht : transport 0 0 = TransportOutcome.http 200 body)
    (hcb : ∀ p r, cb p r = true) :
    ((send_bulk_messages mr rl rd transport [c] tmpl (some cb) r0 n0).results.total = 1 ∧
      (send_bulk_messages mr rl rd transport [c] tmpl (some cb) r0 n0).results.successful = 1 ∧
      (send_bulk_messages mr rl rd transport [c] tmpl (some cb) r0 n0).results.failed = 1 ∧
      (send_bulk_messages mr rl rd transport [c] tmpl (some cb) r0 n0).results.failures =
        [⟨c, DispatchError.callbackError⟩] ∧
      (send_bulk_messages mr rl rd transport [c] tmpl (some cb) r0 n0).results.successful +
        (send_bulk_messages mr rl rd transport [c] tmpl (some cb) r0 n0).results.failed >
        (send_bulk_messages mr rl rd transport [c] tmpl (some cb) r0 n0).results.total) ∧
    (∀ rest : List Contact,
      send_bulk_messages mr rl rd transport (c :: rest) tmpl (some cb) r0 n0 =
        bulkLoop mr rl rd transport tmpl (some cb) (c :: rest).length rest 1
          (processContact mr rl rd transport tmpl (some cb) (c :: rest).length 0 c
            (initState (c :: rest) r0 n0))) := by
  have hs := sendMessageGo_success mr rl rd (transport 0) ph (mr + 1) 0 r0 n0 body ht
  refine ⟨?_, fun rest => rfl⟩
  simp [send_bulk_messages, bulkLoop, processContact, initState, hr, hp, sendMessage, hs,
    errorOf, hcb]

/-- C10 witness: the theorem at a concrete contact, template, transport and
always-raising callback. -/
theorem c10_raising_callback_witness :
    (renderTemplate [TemplatePart.lit "hi"] [("phone_number", "1234567890")] = .ok "hi" ∧
      lookupField [("phone_number", "1234567890")] "phone_number" = some "1234567890" ∧
      (fun _ _ => TransportOutcome.http 200 "ok") 0 0 = TransportOutcome.http 200 "ok" ∧
      (∀ (p : Rat) (r : DispatchResult), (fun _ _ => true) p r = true)) ∧
    ((send_bulk_messages 3 20 5 (fun _ _ => TransportOutcome.http 200 "ok")
        [[("phone_number", "1234567890")]] [TemplatePart.lit "hi"]
        (some (fun _ _ => true)) ⟨0, 0⟩ 0).results.total = 1 ∧
      (send_bulk_messages 3 20 5 (fun _ _ => TransportOutcome.http 200 "ok")
        [[("phone_number", "1234567890")]] [TemplatePart.lit "hi"]
        (some (fun _ _ => true)) ⟨0, 0⟩ 0).results.successful = 1 ∧
      (send_bulk_messages 3 20 5 (fun _ _ => TransportOutcome.http 200 "ok")
        [[("phone_number", "1234567890")]] [TemplatePart.lit "hi"]
        (some (fun _ _ => true)) ⟨0, 0⟩ 0).results.failed = 1 ∧
      (send_bulk_messages 3 20 5 (fun _ _ => TransportOutcome.http 200 "ok")
        [[("phone_number", "1234567890")]] [TemplatePart.lit "hi"]
        (some (fun _ _ => true)) ⟨0, 0⟩ 0).results.failures =
        [⟨[("phone_number", "1234567890")], DispatchError.callbackError⟩] ∧
      (send_bulk_messages 3 20 5 (fun _ _ => TransportOutcome.http 200 "ok")
        [[("phone_number", "1234567890")]] [TemplatePart.lit "hi"]
        (some (fun _ _ => true)) ⟨0, 0⟩ 0).results.successful +
        (send_bulk_messages 3 20 5 (fun _ _ => TransportOutcome.http 200 "ok")
          [[("phone_number", "1234567890")]] [TemplatePart.lit "hi"]
          (some (fun _ _ => true)) ⟨0, 0⟩ 0).results.failed >
        (send_bulk_messages 3 20 5 (fun _ _ => TransportOutcome.http 200 "ok")
          [[("phone_number", "1234567890")]] [TemplatePart.lit "hi"]
          (some (fun _ _ => true)) ⟨0, 0⟩ 0).results.total) := by
  refine ⟨⟨rfl, by decide, rfl, fun _ _ => rfl⟩, ?_⟩
  exact (c10_raising_callback 3 20 5 (fun _ _ => TransportOutcome.http 200 "ok")
    [TemplatePart.lit "hi"] (fun _ _ => true) [("phone_number", "1234567890")]
    ⟨0, 0⟩ 0 "hi" "1234567890" "ok" rfl (by decide) rfl (fun _ _ => rfl)).1

/-! ## Trace lemmas for the bulk loop -/

theorem bulkLoop_append (mr rl rd : Nat) (transport : Nat → Nat → TransportOutcome)
    (tmpl : Template) (callback : Option (Rat → DispatchResult → Bool)) (total : Nat) :
    ∀ (l1 l2 : List Contact) (i : Nat) (st : BulkState),
      bulkLoop mr rl rd transport tmpl callback total (l1 ++ l2) i st =
        bulkLoop mr rl rd transport tmpl callback total l2 (i + l1.length)
          (bulkLoop mr rl rd transport tmpl callback total l1 i st) := by
  intro l1
  induction l1 with
  | nil => intro l2 i st; simp [bulkLoop]
  | cons c rest ih =>
      intro l2 i st
      have h : i + (rest.length + 1) = (i + 1) + rest.length := by omega
      simp only [List.cons_append, bulkLoop, List.length_cons, h]
      exact ih l2 (i + 1) _

theorem processContact_failures_mem (mr rl rd : Nat)
    (transport : Nat → Nat → TransportOutcome) (tmpl : Template)
    (callback : Option (Rat → DispatchResult → Bool)) (total index : Nat)
    (c : Contact) (st : BulkState) (x : FailureEntry)
    (hx : x ∈ st.results.failures) :
    x ∈ (processContact mr rl rd transport tmpl callback total index c st).results.failures := by
  cases hr : renderTemplate tmpl c with
  | error f => simp [processContact, hr, hx]
  | ok msg =>
    cases hp : lookupField c "phone_number" with
    | none => simp [processContact, hr, hp, hx]
    | some phone =>
      cases callback with
      | none =>
          cases he : errorOf (sendMessage mr rl rd (transport index) phone 0 st.rate
            st.now).result <;> simp [processContact, hr, hp, he, hx]
      | some cb =>
          cases he : errorOf (sendMessage mr rl rd (transport index) phone 0 st.rate
              st.now).result with
          | none =>
              simp only [processContact, hr, hp, he]
              split <;> simp [hx]
          | some e =>
              simp only [processContact, hr, hp, he]
              split <;> simp [hx]

theorem bulkLoop_failures_mem (mr rl rd : Nat) (transport : Nat → Nat → TransportOutcome)
    (tmpl : Template) (callback : Option (Rat → DispatchResult → Bool)) (total : Nat) :
    ∀ (l : List Contact) (i : Nat) (st : BulkState) (x : FailureEntry),
      x ∈ st.results.failures →
      x ∈ (bulkLoop mr rl rd transport tmpl callback total l i st).results.failures := by
  intro l
  induction l with
  | nil => intro i st x hx; simpa [bulkLoop] using hx
  | cons c rest ih =>
      intro i st x hx
      simp only [bulkLoop]
      exact ih (i + 1) _ x
        (processContact_failures_mem mr rl rd transport tmpl callback total i c st x hx)

theorem processContact_transportCalls (mr rl rd : Nat)
    (transport : Nat → Nat → TransportOutcome) (tmpl : Template)
    (callback : Option (Rat → DispatchResult → Bool)) (total index : Nat)
    (c : Contact) (st : BulkState) :
    ∀ pr ∈ (processContact mr rl rd transport tmpl callback total index c st).transportCalls,
      pr ∈ st.transportCalls ∨ pr.1 = index := by
  intro pr
  cases hr : renderTemplate tmpl c with
  | error f => intro h; exact Or.inl (by simpa [processContact, hr] using h)
  | ok msg =>
    cases hp : lookupField c "phone_number" with
    | none => intro h; exact Or.inl (by simpa [processContact, hr, hp] using h)
    | some phone =>
      intro h
      have h' : pr ∈ st.transportCalls ++
          (List.range (sendMessage mr rl rd (transport index) phone 0 st.rate
            st.now).attempts).map (fun k => (index, k)) := by
        cases callback with
        | none =>
            cases he : errorOf (sendMessage mr rl rd (transport index) phone 0 st.rate
                st.now).result <;>
              simpa [processContact, hr, hp, he] using h
        | some cb =>
            cases he : errorOf (sendMessage mr rl rd (transport index) phone 0 st.rate
                st.now).result with
            | none =>
                simp only [processContact, hr, hp, he] at h
                split at h <;> simpa using h
            | some e =>
                simp only [processContact, hr, hp, he] at h
                split at h <;> simpa using h
      rcases List.mem_append.mp h' with h'' | h''
      · exact Or.inl h''
      · obtain ⟨k, _, hk⟩ := List.mem_map.mp h''
        exact Or.inr (by rw [← hk])

theorem bulkLoop_transportCalls (mr rl rd : Nat) (transport : Nat → Nat → TransportOutcome)
    (tmpl : Template) (callback : Option (Rat → DispatchResult → Bool)) (total : Nat) :
    ∀ (l : List Contact) (i : Nat) (st : BulkState) (pr : Nat × Nat),
      pr ∈ (bulkLoop mr rl rd transport tmpl callback total l i st).transportCalls →
      pr ∈ st.transportCalls ∨ (i ≤ pr.1 ∧ pr.1 < i + l.length) := by
  intro l
  induction l with
  | nil => intro i st pr h; exact Or.inl (by simpa [bulkLoop] using h)
  | cons c rest ih =>
      intro i st pr h
      rcases ih (i + 1) (processContact mr rl rd transport tmpl callback total i c st) pr
          (by simpa [bulkLoop] using h) with h' | h'
      · rcases processContact_transportCalls mr rl rd transport tmpl callback total i c st
            pr h' with h'' | h''
        · exact Or.inl h''
        · exact Or.inr (by simp only [List.length_cons]; omega)
      · exact Or.inr (by simp only [List.length_cons] at h' ⊢; omega)

/-- If the template references a field the contact lacks, rendering raises
`KeyError` on some referenced field that the contact lacks (the first such
field in template order). -/
theorem renderTemplate_missing (tmpl : Template) (c : Contact) (f : String)
    (hf : TemplatePart.field f ∈ tmpl) (hc : lookupField c f = none) :
    ∃ e, renderTemplate tmpl c = .error e ∧ lookupField c e = none := by
  induction tmpl with
  | nil => simp at hf
  | cons part rest ih =>
      cases part with
      | lit s =>
          have hf' : TemplatePart.field f ∈ rest := by
            rcases List.mem_cons.mp hf with h | h
            · exact absurd h (by simp)
            · exact h
          obtain ⟨e, he, hce⟩ := ih hf'
          exact ⟨e, by simp [renderTemplate, he, Except.map], hce⟩
      | field g =>
          cases hg : lookupField c g with
          | none => exact ⟨g, by simp [renderTemplate, hg], hg⟩
          | some v =>
              have hf' : TemplatePart.field f ∈ rest := by
                rcases List.mem_cons.mp hf with h | h
                · have hfg : f = g := by injection h
                  rw [hfg] at hc
                  rw [hc] at hg
                  cases hg
                · exact h
              obtain ⟨e, he, hce⟩ := ih hf'
              exact ⟨e, by simp [renderTemplate, hg, he, Except.map], hce⟩

/-- C6: for every contact missing a field referenced by a template
placeholder, `send_bulk_messages` records that contact as a failure of kind
`TemplateRenderError` (the `KeyError` raised by rendering, caught at the
per-contact boundary before any send), makes no transport call for it (hence
no retries for it either), and processing continues with the remaining
contacts through the same loop. -/
theorem c6_template_render_failure (mr rl rd : Nat)
    (transport : Nat → Nat → TransportOutcome) (tmpl : Template)
    (callback : Option (Rat → DispatchResult → Bool)) (l1 l2 : List Contact)
    (c : Contact) (r0 : RateState) (n0 : Nat) (f : String)
    (hf : TemplatePart.field f ∈ tmpl) (hc : lookupField c f = none) :
    ∃ e, lookupField c e = none ∧
      (⟨c, DispatchError.templateRenderError e⟩ : FailureEntry) ∈
        (send_bulk_messages mr rl rd transport (l1 ++ c :: l2) tmpl callback r0
          n0).results.failures ∧
      (∀ k : Nat, (l1.length, k) ∉
        (send_bulk_messages mr rl rd transport (l1 ++ c :: l2) tmpl callback r0
          n0).transportCalls) ∧
      send_bulk_messages mr rl rd transport (l1 ++ c :: l2) tmpl callback r0 n0 =
        bulkLoop mr rl rd transport tmpl callback (l1 ++ c :: l2).length l2 (l1.length + 1)
          (processContact mr rl rd transport tmpl callback (l1 ++ c :: l2).length l1.length c
            (bulkLoop mr rl rd transport tmpl callback (l1 ++ c :: l2).length l1 0
              (initState (l1 ++ c :: l2) r0 n0))) := by
  obtain ⟨e, he, hce⟩ := renderTemplate_missing tmpl c f hf hc
  refine ⟨e, hce, ?_, ?_, ?_⟩
  · -- the failure entry is appended when `c` is processed and never removed
    have hdec :
        send_bulk_messages mr rl rd transport (l1 ++ c :: l2) tmpl callback r0 n0 =
          bulkLoop mr rl rd transport tmpl callback (l1 ++ c :: l2).length l2 (l1.length + 1)
            (processContact mr rl rd transport tmpl callback (l1 ++ c :: l2).length
              l1.length c
              (bulkLoop mr rl rd transport tmpl callback (l1 ++ c :: l2).length l1 0
                (initState (l1 ++ c :: l2) r0 n0))) := by
      simp only [send_bulk_messages]
      rw [bulkLoop_append]
      simp [bulkLoop]
    rw [hdec]
    refine bulkLoop_failures_mem mr rl rd transport tmpl callback
      (l1 ++ c :: l2).length l2 (l1.length + 1) _ _ ?_
    simp [processContact, he]
  · intro k hmem
    have hdec :
        send_bulk_messages mr rl rd transport (l1 ++ c :: l2) tmpl callback r0 n0 =
          bulkLoop mr rl rd transport tmpl callback (l1 ++ c :: l2).length l2 (l1.length + 1)
            (processContact mr rl rd transport tmpl callback (l1 ++ c :: l2).length
              l1.length c
              (bulkLoop mr rl rd transport tmpl callback (l1 ++ c :: l2).length l1 0
                (initState (l1 ++ c :: l2) r0 n0))) := by
      simp only [send_bulk_messages]
      rw [bulkLoop_append]
      simp [bulkLoop]
    rw [hdec] at hmem
    rcases bulkLoop_transportCalls mr rl rd transport tmpl callback (l1 ++ c :: l2).length
        l2 (l1.length + 1) _ _ hmem with h' | h'
    · -- processing `c` itself adds no transport call
      have hpc : (processContact mr rl rd transport tmpl callback (l1 ++ c :: l2).length
          l1.length c
          (bulkLoop mr rl rd transport tmpl callback (l1 ++ c :: l2).length l1 0
            (initState (l1 ++ c :: l2) r0 n0))).transportCalls =
          (bulkLoop mr rl rd transport tmpl callback (l1 ++ c :: l2).length l1 0
            (initState (l1 ++ c :: l2) r0 n0)).transportCalls := by
        simp [processContact, he]
      rw [hpc] at h'
      rcases bulkLoop_transportCalls mr rl rd transport tmpl callback (l1 ++ c :: l2).length
          l1 0 (initState (l1 ++ c :: l2) r0 n0) _ h' with h'' | h''
      · simp [initState] at h''
      · omega
    · omega
  · simp only [send_bulk_messages]
    rw [bulkLoop_append]
    simp [bulkLoop]

/-- C6 witness: the theorem at the template `"Hi {name}"` and a contact that
has a phone number but no `name` field. -/
theorem c6_template_render_failure_witness :
    (TemplatePart.field "name" ∈ ([TemplatePart.lit "Hi ", TemplatePart.field "name"] :
        Template) ∧
      lookupField [("phone_number", "1234567890")] "name" = none) ∧
    (∃ e, lookupField [("phone_number", "1234567890")] e = none ∧
      (⟨[("phone_number", "1234567890")], DispatchError.templateRenderError e⟩ :
          FailureEntry) ∈
        (send_bulk_messages 3 20 5 (fun _ _ => TransportOutcome.http 200 "ok")
          ([] ++ [("phone_number", "1234567890")] :: [])
          [TemplatePart.lit "Hi ", TemplatePart.field "name"] none ⟨0, 0⟩
          0).results.failures ∧
      (∀ k : Nat, (([] : List Contact).length, k) ∉
        (send_bulk_messages 3 20 5 (fun _ _ => TransportOutcome.http 200 "ok")
          ([] ++ [("phone_number", "1234567890")] :: [])
          [TemplatePart.lit "Hi ", TemplatePart.field "name"] none ⟨0, 0⟩
          0).transportCalls) ∧
      send_bulk_messages 3 20 5 (fun _ _ => TransportOutcome.http 200 "ok")
          ([] ++ [("phone_number", "1234567890")] :: [])
          [TemplatePart.lit "Hi ", TemplatePart.field "name"] none ⟨0, 0⟩ 0 =
        bulkLoop 3 20 5 (fun _ _ => TransportOutcome.http 200 "ok")
          [TemplatePart.lit "Hi ", TemplatePart.field "name"] none
          (([] ++ [("phone_number", "1234567890")] :: []) : List Contact).length []
          (([] : List Contact).length + 1)
          (processContact 3 20 5 (fun _ _ => TransportOutcome.http 200 "ok")
            [TemplatePart.lit "Hi ", TemplatePart.field "name"] none
            (([] ++ [("phone_number", "1234567890")] :: []) : List Contact).length
            ([] : List Contact).length [("phone_number", "1234567890")]
            (bulkLoop 3 20 5 (fun _ _ => TransportOutcome.http 200 "ok")
              [TemplatePart.lit "Hi ", TemplatePart.field "name"] none
              (([] ++ [("phone_number", "1234567890")] :: []) : List Contact).length [] 0
              (initState ([] ++ [("phone_number", "1234567890")] :: []) ⟨0, 0⟩ 0)))) :=
  ⟨⟨by decide, by decide⟩,
    c6_template_render_failure 3 20 5 (fun _ _ => TransportOutcome.http 200 "ok")
      [TemplatePart.lit "Hi ", TemplatePart.field "name"] none [] []
      [("phone_number", "1234567890")] ⟨0, 0⟩ 0 "name" (by decide) (by decide)⟩

/-! ## Progress-callback trace characterisation -/

/-- A contact whose per-contact processing raises no exception before the
callback: its template renders and it carries a `phone_number` field. -/
def goodContact (tmpl : Template) (c : Contact) : Prop :=
  (∃ m, renderTemplate tmpl c = .ok m) ∧ (∃ v, lookupField c "phone_number" = some v)

theorem processContact_callback (mr rl rd : Nat) (transport : Nat → Nat → TransportOutcome)
    (tmpl : Template) (cb : Rat → DispatchResult → Bool) (total index : Nat)
    (c : Contact) (st : BulkState) (hg : goodContact tmpl c)
    (hcb : ∀ p r, cb p r = false) :
    (processContact mr rl rd transport tmpl (some cb) total index c st).callbackCalls =
      st.callbackCalls ++ [(progressOf total index,
        (processContact mr rl rd transport tmpl (some cb) total index c st).results)] := by
  obtain ⟨⟨m, hr⟩, ⟨v, hp⟩⟩ := hg
  cases he : errorOf (sendMessage mr rl rd (transport index) v 0 st.rate st.now).result <;>
    simp [processContact, hr, hp, he, hcb]

theorem bulkLoop_callbackCalls (mr rl rd : Nat) (transport : Nat → Nat → TransportOutcome)
    (tmpl : Template) (cb : Rat → DispatchResult → Bool) (total : Nat)
    (hcb : ∀ p r, cb p r = false) :
    ∀ (l : List Contact) (i : Nat) (st : BulkState),
      (∀ c ∈ l, goodContact tmpl c) →
      (bulkLoop mr rl rd transport tmpl (some cb) total l i st).callbackCalls =
        st.callbackCalls ++ (List.range l.length).map (fun k =>
          (progressOf total (i + k),
            (bulkLoop mr rl rd transport tmpl (some cb) total (l.take (k + 1)) i
              st).results)) := by
  intro l
  induction l with
  | nil => intro i st _; simp [bulkLoop]
  | cons c rest ih =>
      intro i st hgood
      have hc := hgood c (List.mem_cons_self c rest)
      have hrest : ∀ x ∈ rest, goodContact tmpl x :=
        fun x hx => hgood x (List.mem_cons_of_mem c hx)
      have hstep := processContact_callback mr rl rd transport tmpl cb total i c st hc hcb
      have htake : ∀ k : Nat,
          bulkLoop mr rl rd transport tmpl (some cb) total ((c :: rest).take (k + 1 + 1)) i
              st =
            bulkLoop mr rl rd transport tmpl (some cb) total (rest.take (k + 1)) (i + 1)
              (processContact mr rl rd transport tmpl (some cb) total i c st) := by
        intro k
        rw [List.take_succ_cons]
        rfl
      calc (bulkLoop mr rl rd transport tmpl (some cb) total (c :: rest) i st).callbackCalls
          = (bulkLoop mr rl rd transport tmpl (some cb) total rest (i + 1)
              (processContact mr rl rd transport tmpl (some cb) total i c
                st)).callbackCalls := rfl
        _ = (processContact mr rl rd transport tmpl (some cb) total i c st).callbackCalls ++
              (List.range rest.length).map (fun k =>
                (progressOf total ((i + 1) + k),
                  (bulkLoop mr rl rd transport tmpl (some cb) total (rest.take (k + 1))
                    (i + 1)
                    (processContact mr rl rd transport tmpl (some cb) total i c
                      st)).results)) := by
            rw [ih (i + 1) _ hrest]
        _ = st.callbackCalls ++ ((progressOf total i,
              (processContact mr rl rd transport tmpl (some cb) total i c st).results) ::
              (List.range rest.length).map (fun k =>
                (progressOf total ((i + 1) + k),
                  (bulkLoop mr rl rd transport tmpl (some cb) total (rest.take (k + 1))
                    (i + 1)
                    (processContact mr rl rd transport tmpl (some cb) total i c
                      st)).results))) := by
            rw [hstep]
            simp
        _ = st.callbackCalls ++ (List.range (rest.length + 1)).map (fun k =>
              (progressOf total (i + k),
                (bulkLoop mr rl rd transport tmpl (some cb) total ((c :: rest).take (k + 1))
                  i st).results)) := by
            rw [List.range_succ_eq_map, List.map_cons, List.map_map]
            refine congrArg (fun z => st.callbackCalls ++ z) ?_
            congr 1
            refine List.map_congr_left (fun k _ => ?_)
            have h1 : i + (k + 1) = (i + 1) + k := by omega
            simp only [Function.comp_apply, Nat.succ_eq_add_one, htake k, h1]
        _ = st.callbackCalls ++ (List.range (c :: rest).length).map (fun k =>
              (progressOf total (i + k),
                (bulkLoop mr rl rd transport tmpl (some cb) total ((c :: rest).take (k + 1))
                  i st).results)) := by
            simp

/-- C3 counterexample: a one-contact list with a callback supplied where the
contact's template rendering fails — its outcome is finalised as a failure,
yet the progress callback is never invoked (the render `KeyError` lands in
the `except` branch, which skips the callback), so the callback is not
invoked once per finalised contact. -/
theorem c3_progress_counterexample :
    (send_bulk_messages 3 20 5 (fun _ _ => TransportOutcome.http 200 "ok")
        [[("phone_number", "1234567890")]] [TemplatePart.field "name"]
        (some (fun _ _ => false)) ⟨0, 0⟩ 0).callbackCalls = [] ∧
    (send_bulk_messages 3 20 5 (fun _ _ => TransportOutcome.http 200 "ok")
        [[("phone_number", "1234567890")]] [TemplatePart.field "name"]
        (some (fun _ _ => false)) ⟨0, 0⟩ 0).results.failed = 1 := by
  decide

/-- C3 (amended): for every non-empty contact list with a progress callback
supplied, provided every contact's per-contact processing raises no
exception (its template renders, it has a `phone_number` field, and the
callback returns normally), the callback is invoked once after every
contact's outcome is finalised, in input order: the trace of invocations is
exactly one entry per contact, the k-th carrying percentage
`progressOf total k = 100 * (k + 1) / total` and the snapshot obtained by
processing the first `k + 1` contacts; percentages are strictly increasing
and end at exactly 100 after the last contact.  (For a contact whose
processing raises — e.g. a template-render failure — the callback is skipped
for that contact.) -/
theorem c3_progress_amended (mr rl rd : Nat) (transport : Nat → Nat → TransportOutcome)
    (tmpl : Template) (cb : Rat → DispatchResult → Bool) (contacts : List Contact)
    (r0 : RateState) (n0 : Nat)
    (hgood : ∀ c ∈ contacts, goodContact tmpl c)
    (hcb : ∀ p r, cb p r = false)
    (hne : contacts ≠ []) :
    (send_bulk_messages mr rl rd transport contacts tmpl (some cb) r0 n0).callbackCalls =
      (List.range contacts.length).map (fun k =>
        (progressOf contacts.length k,
          (bulkLoop mr rl rd transport tmpl (some cb) contacts.length
            (contacts.take (k + 1)) 0 (initState contacts r0 n0)).results)) ∧
    (send_bulk_messages mr rl rd transport contacts tmpl (some cb) r0
        n0).callbackCalls.length = contacts.length ∧
    List.Pairwise (fun a b => a.1 < b.1)
      (send_bulk_messages mr rl rd transport contacts tmpl (some cb) r0 n0).callbackCalls ∧
    ((send_bulk_messages mr rl rd transport contacts tmpl (some cb) r0 n0).callbackCalls.map
      Prod.fst).getLast? = some 100 ∧
    (∀ k : Nat, progressOf contacts.length k =
      100 * ((k : Rat) + 1) / (contacts.length : Rat)) := by
  have hn : 0 < contacts.length := List.length_pos.mpr hne
  have hnq : (0 : Rat) < (contacts.length : Rat) := by exact_mod_cast hn
  have hchar :
      (send_bulk_messages mr rl rd transport contacts tmpl (some cb) r0 n0).callbackCalls =
        (List.range contacts.length).map (fun k =>
          (progressOf contacts.length k,
            (bulkLoop mr rl rd transport tmpl (some cb) contacts.length
              (contacts.take (k + 1)) 0 (initState contacts r0 n0)).results)) := by
    have h := bulkLoop_callbackCalls mr rl rd transport tmpl cb contacts.length hcb
      contacts 0 (initState contacts r0 n0) hgood
    simpa [send_bulk_messages, initState] using h
  have hmono : ∀ a b : Nat, a < b → progressOf contacts.length a < progressOf contacts.length b := by
    intro a b hab
    have hnum : ((a : Rat) + 1) < ((b : Rat) + 1) := by exact_mod_cast Nat.succ_lt_succ hab
    exact mul_lt_mul_of_pos_right ((div_lt_div_iff_of_pos_right hnq).mpr hnum) (by norm_num)
  refine ⟨hchar, ?_, ?_, ?_, ?_⟩
  · rw [hchar]
    simp
  · rw [hchar]
    rw [List.pairwise_map]
    exact (List.pairwise_lt_range contacts.length).imp (fun {a b} h => hmono a b h)
  · rw [hchar]
    obtain ⟨m, hm⟩ := Nat.exists_eq_succ_of_ne_zero (Nat.pos_iff_ne_zero.mp hn)
    rw [hm, List.range_succ, List.map_append, List.map_append, List.map_singleton,
      List.map_singleton, List.getLast?_concat]
    simp only [progressOf]
    push_cast
    rw [div_self (by positivity), one_mul]
  · intro k
    simp only [progressOf]
    ring

/-- C3 witness: the amended theorem at a single-contact list with a
well-formed template, an always-200 transport and a never-raising callback. -/
theorem c3_progress_witness :
    ((∀ c ∈ ([[("phone_number", "1234567890")]] : List Contact),
        goodContact [TemplatePart.lit "hi"] c) ∧
      (∀ (p : Rat) (r : DispatchResult), (fun _ _ => false) p r = false) ∧
      ([[("phone_number", "1234567890")]] : List Contact) ≠ []) ∧
    ((send_bulk_messages 3 20 5 (fun _ _ => TransportOutcome.http 200 "ok")
        [[("phone_number", "1234567890")]] [TemplatePart.lit "hi"]
        (some (fun _ _ => false)) ⟨0, 0⟩ 0).callbackCalls =
      (List.range ([[("phone_number", "1234567890")]] : List Contact).length).map (fun k =>
        (progressOf ([[("phone_number", "1234567890")]] : List Contact).length k,
          (bulkLoop 3 20 5 (fun _ _ => TransportOutcome.http 200 "ok")
            [TemplatePart.lit "hi"] (some (fun _ _ => false))
            ([[("phone_number", "1234567890")]] : List Contact).length
            (([[("phone_number", "1234567890")]] : List Contact).take (k + 1)) 0
            (initState [[("phone_number", "1234567890")]] ⟨0, 0⟩ 0)).results)) ∧
      (send_bulk_messages 3 20 5 (fun _ _ => TransportOutcome.http 200 "ok")
        [[("phone_number", "1234567890")]] [TemplatePart.lit "hi"]
        (some (fun _ _ => false)) ⟨0, 0⟩ 0).callbackCalls.length =
        ([[("phone_number", "1234567890")]] : List Contact).length ∧
      List.Pairwise (fun a b => a.1 < b.1)
        (send_bulk_messages 3 20 5 (fun _ _ => TransportOutcome.http 200 "ok")
          [[("phone_number", "1234567890")]] [TemplatePart.lit "hi"]
          (some (fun _ _ => false)) ⟨0, 0⟩ 0).callbackCalls ∧
      ((send_bulk_messages 3 20 5 (fun _ _ => TransportOutcome.http 200 "ok")
        [[("phone_number", "1234567890")]] [TemplatePart.lit "hi"]
        (some (fun _ _ => false)) ⟨0, 0⟩ 0).callbackCalls.map Prod.fst).getLast? =
        some 100 ∧
      (∀ k : Nat, progressOf ([[("phone_number", "1234567890")]] : List Contact).length k =
        100 * ((k : Rat) + 1) /
          (([[("phone_number", "1234567890")]] : List Contact).length : Rat))) := by
  have hgood : ∀ c ∈ ([[("phone_number", "1234567890")]] : List Contact),
      goodContact [TemplatePart.lit "hi"] c := by
    intro c hc
    rcases List.mem_cons.mp hc with rfl | hc
    · exact ⟨⟨"hi", rfl⟩, ⟨"1234567890", rfl⟩⟩
    · cases hc
  exact ⟨⟨hgood, fun _ _ => rfl, by decide⟩,
    c3_progress_amended 3 20 5 (fun _ _ => TransportOutcome.http 200 "ok")
      [TemplatePart.lit "hi"] (fun _ _ => false) [[("phone_number", "1234567890")]]
      ⟨0, 0⟩ 0 hgood (fun _ _ => rfl) (by decide)⟩

/-! ## Phone-number helper claims -/

/-- The first character of a digit-filtered string is never `'+'`. -/
theorem startsWithChar_cleanDigits (s : String) :
    startsWithChar (cleanDigits s) '+' = false := by
  unfold startsWithChar cleanDigits
  cases hd : s.data.filter Char.isDigit with
  | nil => simp [hd]
  | cons a t =>
      have ha : Char.isDigit a = true :=
        (List.mem_filter.mp (hd ▸ List.mem_cons_self a t)).2
      have hne : a ≠ '+' := by
        intro h
        rw [h] at ha
        exact absurd ha (by decide)
      simp [hd, hne]

/-- C8: for every input string, `validate_phone_number` returns true iff the
string stripped of all non-digit characters has length in [10, 15], and
`format_phone_number` returns `'+'` followed by exactly the digit characters
of the input (the digit-stripped string never starts with `'+'`, so the
prefix is always added); in particular `format_phone_number "123-456-7890"`
yields `"+1234567890"`, `validate_phone_number "12345"` yields `false`, and
`validate_phone_number "+14155552671"` yields `true`. -/
theorem c8_phone_helpers (s : String) :
    (validate_phone_number s = true ↔
      10 ≤ (cleanDigits s).length ∧ (cleanDigits s).length ≤ 15) ∧
    format_phone_number s = "+" ++ cleanDigits s ∧
    (cleanDigits s).data = s.data.filter Char.isDigit ∧
    format_phone_number "123-456-7890" = "+1234567890" ∧
    validate_phone_number "12345" = false ∧
    validate_phone_number "+14155552671" = true := by
  refine ⟨?_, ?_, rfl, by decide, by decide, by decide⟩
  · simp only [validate_phone_number]
    split
    · rename_i h
      simp only [Bool.or_eq_true, decide_eq_true_eq] at h
      simp only [Bool.false_eq_true, false_iff]
      omega
    · rename_i h
      simp only [Bool.or_eq_true, decide_eq_true_eq] at h
      push_neg at h
      simp only [true_iff]
      omega
  · simp [format_phone_number, startsWithChar_cleanDigits s]

end WhatsApp
